import Mathlib

/-!
Verification of the appointment-scheduling core of the Clinic Management
System (`CMS.py`).  The Python code is shallowly embedded: the SQLite store
becomes an explicit `ClinicDB` record threaded through the operations,
Python string predicates (`str.isdigit`, `str.strip`, `int(...)`) and
`datetime.strptime(s, "%Y-%m-%d %H:%M")` become executable Lean functions
over ASCII strings, and `schedule_appointment` becomes a pure function
from a store and the four raw input strings to a `(Bool × String)` result
together with the updated store.
-/

namespace CMS

/-- Character model of `str.isdigit` restricted to ASCII decimal digits,
which is the fragment the identifiers in this program use. -/
def charIsDigit (c : Char) : Bool := '0' ≤ c && c ≤ '9'

/-- Model of Python `str.isdigit()`: the string is non-empty and every
character is a decimal digit. -/
def pyIsdigit (s : String) : Bool := !s.data.isEmpty && s.data.all charIsDigit

/-- Numeric value of a list of decimal digit characters, most significant
first; this is the value `int(...)` computes on an all-digit token. -/
def listToNat (cs : List Char) : Nat := cs.foldl (fun n c => n * 10 + (c.toNat - 48)) 0

/-- Model of Python `int(...)` applied to an all-digit token. -/
def strToNat (s : String) : Nat := listToNat s.data

/-- Whitespace class used by Python's `str.strip()` and by `\s` in the
`strptime` regular expression (ASCII fragment). -/
def isPySpace (c : Char) : Bool :=
  c == ' ' || c == '\t' || c == '\n' || c == '\x0d' || c == '\x0b' || c == '\x0c'

/-- Model of Python `str.strip()`: drop leading and trailing whitespace. -/
def pyStrip (s : String) : String :=
  ⟨((s.data.dropWhile isPySpace).reverse.dropWhile isPySpace).reverse⟩

/-- The structured timestamp produced by a successful
`datetime.strptime(s, "%Y-%m-%d %H:%M")` (seconds are always zero). -/
structure PyDateTime where
  year : Nat
  month : Nat
  day : Nat
  hour : Nat
  minute : Nat
deriving DecidableEq, Repr

/-- Gregorian leap-year test, as in Python's `datetime`. -/
def isLeap (y : Nat) : Bool := (y % 4 == 0 && y % 100 != 0) || y % 400 == 0

/-- Number of days of month `m` of year `y` (months 1..12). -/
def daysInMonth (y m : Nat) : Nat :=
  if m == 2 then (if isLeap y then 29 else 28)
  else if m == 4 || m == 6 || m == 9 || m == 11 then 30
  else 31

/-- Model of `datetime.strptime(s, "%Y-%m-%d %H:%M")`.  CPython compiles the
format to the regular expression
`(\d\d\d\d)-(1[0-2]|0[1-9]|[1-9])-(3[01]|[12]\d|0[1-9]|[1-9])\s+(2[0-3]|[0-1]\d|\d):([0-5]\d|\d)`
which must consume the whole string, and then calls the `datetime`
constructor, which additionally rejects `year = 0` and days past the end of
the month.  Because every numeric field is followed by a non-digit (or the
end of the string), each field consumes a maximal digit run, so the regex is
equivalent to the digit-run conditions below: year is exactly four digits,
month/day/hour/minute are one- or two-digit runs in range (month 1-12,
day 1-31, hour 0-23, minute 0-59), and the separator is one or more
whitespace characters. -/
def strptimeYmdHM (s : String) : Option PyDateTime :=
  let cs := s.data
  let yrun := cs.takeWhile charIsDigit
  let r1 := cs.dropWhile charIsDigit
  if yrun.length = 4 ∧ r1.head? = some '-' then
    let r2 := r1.tail
    let mrun := r2.takeWhile charIsDigit
    let r3 := r2.dropWhile charIsDigit
    if 1 ≤ mrun.length ∧ mrun.length ≤ 2 ∧ 1 ≤ listToNat mrun ∧ listToNat mrun ≤ 12 ∧
        r3.head? = some '-' then
      let r4 := r3.tail
      let drun := r4.takeWhile charIsDigit
      let r5 := r4.dropWhile charIsDigit
      if 1 ≤ drun.length ∧ drun.length ≤ 2 ∧ 1 ≤ listToNat drun ∧ listToNat drun ≤ 31 then
        let wsrun := r5.takeWhile isPySpace
        let r6 := r5.dropWhile isPySpace
        if 1 ≤ wsrun.length then
          let hrun := r6.takeWhile charIsDigit
          let r7 := r6.dropWhile charIsDigit
          if 1 ≤ hrun.length ∧ hrun.length ≤ 2 ∧ listToNat hrun ≤ 23 ∧
              r7.head? = some ':' then
            let r8 := r7.tail
            let nrun := r8.takeWhile charIsDigit
            let r9 := r8.dropWhile charIsDigit
            if 1 ≤ nrun.length ∧ nrun.length ≤ 2 ∧ listToNat nrun ≤ 59 ∧ r9 = [] then
              if 1 ≤ listToNat yrun ∧ listToNat drun ≤ daysInMonth (listToNat yrun) (listToNat mrun) then
                some ⟨listToNat yrun, listToNat mrun, listToNat drun, listToNat hrun, listToNat nrun⟩
              else none
            else none
          else none
        else none
      else none
    else none
  else none

/-- `AppointmentController.validate_datetime` (CMS.py:243-249): succeed with
an empty message when `strptime` parses, otherwise fail with the fixed
format message (the `ValueError` is caught). -/
def validate_datetime (dt_str : String) : Bool × String :=
  match strptimeYmdHM dt_str with
  | some _ => (true, "")
  | none => (false, "Invalid date/time format. Use: YYYY-MM-DD HH:MM")

/-- Row of the `patients` table. -/
structure Patient where
  id : Nat
  name : String
  age : Nat
  gender : String
  phone : String
  address : String
deriving DecidableEq, Repr

/-- Row of the `doctors` table. -/
structure Doctor where
  id : Nat
  name : String
  specialty : String
deriving DecidableEq, Repr

/-- Row of the `users` table. -/
structure UserRow where
  id : Nat
  username : String
  password_hash : String
  role : String
deriving DecidableEq, Repr

/-- Row of the `appointments` table (CMS.py:137-149); `status` defaults to
"Scheduled" on insert. -/
structure Appointment where
  id : Nat
  patient_id : Nat
  doctor_id : Nat
  appt_datetime : String
  reason : String
  status : String
deriving DecidableEq, Repr

/-- The SQLite database: the four tables, plus the next AUTOINCREMENT id
for `appointments`. -/
structure ClinicDB where
  users : List UserRow
  patients : List Patient
  doctors : List Doctor
  appointments : List Appointment
  nextApptId : Nat
deriving DecidableEq, Repr

/-- `PatientDB.get_patient_by_id` (CMS.py:94-98): `SELECT ... FROM patients
WHERE id = ?` returning at most one row. -/
def get_patient_by_id (db : ClinicDB) (patient_id : Nat) : Option Patient :=
  db.patients.find? (fun p => p.id == patient_id)

/-- `DoctorDB.get_doctor_by_id` (CMS.py:132-133). -/
def get_doctor_by_id (db : ClinicDB) (doctor_id : Nat) : Option Doctor :=
  db.doctors.find? (fun d => d.id == doctor_id)

/-- Predicate of the availability query's WHERE clause (CMS.py:155-157). -/
def slotHit (doctor_id : Nat) (appt_datetime : String) (a : Appointment) : Bool :=
  a.doctor_id == doctor_id && a.appt_datetime == appt_datetime && a.status == "Scheduled"

/-- Value of the `SELECT COUNT(*)` in `is_doctor_available`. -/
def slotCount (db : ClinicDB) (doctor_id : Nat) (appt_datetime : String) : Nat :=
  (db.appointments.filter (slotHit doctor_id appt_datetime)).length

/-- `AppointmentDB.is_doctor_available` (CMS.py:151-159): the count of
Scheduled appointments at exactly this (doctor, datetime-string) is zero.
The function is read-only: it takes the store and returns only a Bool. -/
def is_doctor_available (db : ClinicDB) (doctor_id : Nat) (appt_datetime : String) : Bool :=
  slotCount db doctor_id appt_datetime == 0

/-- `AppointmentDB.save_appointment` (CMS.py:161-165): INSERT a row with
default status `Scheduled` and the next AUTOINCREMENT id. -/
def save_appointment (db : ClinicDB) (patient_id doctor_id : Nat)
    (appt_datetime reason : String) : ClinicDB :=
  { db with
    appointments := db.appointments ++
      [{ id := db.nextApptId, patient_id := patient_id, doctor_id := doctor_id,
         appt_datetime := appt_datetime, reason := reason, status := "Scheduled" }],
    nextApptId := db.nextApptId + 1 }

/-- `AppointmentController.schedule_appointment` (CMS.py:251-273), with the
store passed explicitly: the checks run in the source's order and the
function returns the `(ok, message)` pair together with the resulting
store. -/
def schedule_appointment (db : ClinicDB) (patient_id doctor_id appt_datetime reason : String) :
    (Bool × String) × ClinicDB :=
  if !pyIsdigit patient_id then ((false, "Patient ID must be a number."), db)
  else if !pyIsdigit doctor_id then ((false, "Doctor ID must be a number."), db)
  else
    let pid := strToNat patient_id
    let did := strToNat doctor_id
    if (get_patient_by_id db pid).isNone then ((false, "Patient not found."), db)
    else if (get_doctor_by_id db did).isNone then ((false, "Doctor not found."), db)
    else
      let v := validate_datetime appt_datetime
      if !v.1 then ((false, v.2), db)
      else if !is_doctor_available db did appt_datetime then
        ((false, "This doctor is not available at the selected time."), db)
      else
        ((true, "Appointment scheduled successfully."),
          save_appointment db pid did appt_datetime (pyStrip reason))

/-- A store with one patient (id 1) and the three seeded doctors
(CMS.py:116-127), no appointments yet. -/
def sampleDB : ClinicDB :=
  { users := []
    patients := [{ id := 1, name := "Alice", age := 30, gender := "Female",
                   phone := "", address := "" }]
    doctors := [{ id := 1, name := "Dr. Ahmed", specialty := "General" },
                { id := 2, name := "Dr. Sara", specialty := "Pediatrics" },
                { id := 3, name := "Dr. Omar", specialty := "Dermatology" }]
    appointments := []
    nextApptId := 1 }

example : pyIsdigit "0" = true := by decide
example : pyIsdigit "" = false := by decide
example : pyIsdigit "12a" = false := by decide
example : strToNat "007" = 7 := by decide
example : (validate_datetime "2025-03-01 10:00").1 = true := by decide
example : (validate_datetime "2025-3-01 10:00").1 = true := by decide
example : (validate_datetime "2024-02-29 23:59").1 = true := by decide
example : (validate_datetime "2024-02-30 10:00").1 = false := by decide
example : (validate_datetime "0000-01-01 10:00").1 = false := by decide
example : (validate_datetime "2025-03-01 24:00").1 = false := by decide
example : (validate_datetime "2025-03-01 10:0").1 = true := by decide
example : (validate_datetime "2025-03-01  10:00").1 = true := by decide
example : (validate_datetime "2025-03-01 10:00 ").1 = false := by decide
example : (validate_datetime "02025-03-01 10:00").1 = false := by decide
example : (validate_datetime "2025-04-31 10:00").1 = false := by decide
example :
    (schedule_appointment sampleDB "1" "2" "2025-03-01 10:00" " checkup ").1 =
      (true, "Appointment scheduled successfully.") := by decide
example :
    (schedule_appointment sampleDB "99" "2" "bad" "r").1 = (false, "Patient not found.") := by
  decide

/-!
The `pyIsdigit`/`strToNat` model above covers only ASCII tokens.  Python's
`str.isdigit()` is wider: it accepts every character with Unicode
Numeric_Type Decimal or Digit, while `int()` accepts only the Decimal ones,
so a token such as "²" passes the isdigit check and then makes the
unguarded `int(patient_id)` at CMS.py:257 raise a ValueError that escapes
`schedule_appointment`.  The definitions below embed that behaviour
exactly: the two character tables are transcribed from the CPython 3.11 /
Unicode 14.0 character database (every `str.isdigit`-true code point is in
exactly one of them), and `schedule_appointment_exc` is the same pipeline
as `schedule_appointment` with the exception path made explicit as an
`Except.error`.  On tokens made of ASCII characters the two pipelines
coincide.
-/

/-- Base code points of the 66 contiguous runs of ten decimal-digit
characters (Unicode Numeric_Type=Decimal): a character is a decimal digit
with value `c.toNat - base` exactly when `base ≤ c.toNat < base + 10` for
one of these bases.  Both `str.isdigit` and `int()` accept these. -/
def decimalDigitBases : List Nat :=
  [0x30, 0x660, 0x6F0, 0x7C0, 0x966, 0x9E6, 0xA66, 0xAE6, 0xB66, 0xBE6,
   0xC66, 0xCE6, 0xD66, 0xDE6, 0xE50, 0xED0, 0xF20, 0x1040, 0x1090, 0x17E0,
   0x1810, 0x1946, 0x19D0, 0x1A80, 0x1A90, 0x1B50, 0x1BB0, 0x1C40, 0x1C50, 0xA620,
   0xA8D0, 0xA900, 0xA9D0, 0xA9F0, 0xAA50, 0xABF0, 0xFF10, 0x104A0, 0x10D30, 0x11066,
   0x110F0, 0x11136, 0x111D0, 0x112F0, 0x11450, 0x114D0, 0x11650, 0x116C0, 0x11730, 0x118E0,
   0x11950, 0x11C50, 0x11D50, 0x11DA0, 0x16A60, 0x16AC0, 0x16B50, 0x1D7CE, 0x1D7D8, 0x1D7E2,
   0x1D7EC, 0x1D7F6, 0x1E140, 0x1E2F0, 0x1E950, 0x1FBF0]

/-- Code-point ranges of the 128 characters with Unicode Numeric_Type=Digit
but no decimal value (superscripts such as "²", subscripts, circled and
parenthesized digits, Ethiopic digits, ...): `str.isdigit` accepts them but
`int()` raises a ValueError on them. -/
def digitOnlyRanges : List (Nat × Nat) :=
  [(0xB2, 0xB3), (0xB9, 0xB9), (0x1369, 0x1371), (0x19DA, 0x19DA), (0x2070, 0x2070),
   (0x2074, 0x2079), (0x2080, 0x2089), (0x2460, 0x2468), (0x2474, 0x247C), (0x2488, 0x2490),
   (0x24EA, 0x24EA), (0x24F5, 0x24FD), (0x24FF, 0x24FF), (0x2776, 0x277E), (0x2780, 0x2788),
   (0x278A, 0x2792), (0x10A40, 0x10A43), (0x10E60, 0x10E68), (0x11052, 0x1105A), (0x1F100, 0x1F10A)]

/-- Decimal value of a character as used by `int()` (Unicode
Numeric_Type=Decimal), `none` for every other character. -/
def decimalVal? (c : Char) : Option Nat :=
  match decimalDigitBases.find? (fun b => b ≤ c.toNat && c.toNat < b + 10) with
  | some b => some (c.toNat - b)
  | none => none

/-- The character has Numeric_Type=Digit without a decimal value. -/
def isDigitOnly (c : Char) : Bool :=
  digitOnlyRanges.any (fun r => r.1 ≤ c.toNat && c.toNat ≤ r.2)

/-- Per-character model of Python `str.isdigit`: Numeric_Type Decimal or
Digit. -/
def pyIsdigitChar (c : Char) : Bool := (decimalVal? c).isSome || isDigitOnly c

/-- Model of Python `str.isdigit()` on the full character set: non-empty
and every character a Unicode digit. -/
def pyIsdigitU (s : String) : Bool := !s.data.isEmpty && s.data.all pyIsdigitChar

/-- Model of `int()` on the tokens this program feeds it (the call sites
guard it with `isdigit`, so no sign/whitespace/underscore handling is
reachable): the base-10 value when every character is a decimal digit,
`none` — a raised ValueError — otherwise. -/
def pyInt? (s : String) : Option Nat :=
  if s.data.isEmpty then none
  else (s.data.mapM decimalVal?).map (fun ds => ds.foldl (fun n v => n * 10 + v) 0)

deriving instance DecidableEq for Except

/-- `AppointmentController.schedule_appointment` (CMS.py:251-273) with the
exception path made explicit: the two `int(...)` conversions at
CMS.py:257-258 run after both `isdigit` checks and are unguarded, so a
token that passes `isdigit` without an `int()` value makes the call raise
instead of returning a result; `.error` models that escaping ValueError
(payload abbreviated from Python's message, without the repr quoting).
Every other step is as in `schedule_appointment`. -/
def schedule_appointment_exc (db : ClinicDB)
    (patient_id doctor_id appt_datetime reason : String) :
    Except String ((Bool × String) × ClinicDB) :=
  if !pyIsdigitU patient_id then .ok ((false, "Patient ID must be a number."), db)
  else if !pyIsdigitU doctor_id then .ok ((false, "Doctor ID must be a number."), db)
  else
    match pyInt? patient_id with
    | none => .error ("ValueError: invalid literal for int() with base 10: " ++ patient_id)
    | some pid =>
      match pyInt? doctor_id with
      | none => .error ("ValueError: invalid literal for int() with base 10: " ++ doctor_id)
      | some did =>
        if (get_patient_by_id db pid).isNone then .ok ((false, "Patient not found."), db)
        else if (get_doctor_by_id db did).isNone then .ok ((false, "Doctor not found."), db)
        else
          let v := validate_datetime appt_datetime
          if !v.1 then .ok ((false, v.2), db)
          else if !is_doctor_available db did appt_datetime then
            .ok ((false, "This doctor is not available at the selected time."), db)
          else
            .ok ((true, "Appointment scheduled successfully."),
              save_appointment db pid did appt_datetime (pyStrip reason))

example : pyIsdigitU "²" = true ∧ pyInt? "²" = none := by decide
example : pyIsdigitU "٣" = true ∧ pyInt? "٣" = some 3 := by decide
example : pyIsdigitU "١٢3" = true ∧ pyInt? "١٢3" = some 123 := by decide
example : pyIsdigitU "①" = true ∧ pyInt? "①" = none := by decide
example : pyIsdigitU "12a" = false ∧ pyIsdigitU "" = false := by decide
example : pyIsdigitU "0" = true ∧ pyInt? "0" = some 0 := by decide
example :
    schedule_appointment_exc sampleDB "٣" "2" "bad" "r" =
      .ok ((false, "Patient not found."), sampleDB) := by decide
example :
    schedule_appointment_exc sampleDB "1" "2" "2025-03-01 10:00" " checkup " =
      .ok (schedule_appointment sampleDB "1" "2" "2025-03-01 10:00" " checkup ") := by decide

/-- The acceptance pattern stated by the spec, written from its words for
comparison with the code's `validate_datetime`: exactly `YYYY-MM-DD HH:MM`
with a four-digit year, two-digit zero-padded month/day/hour/minute in
range, a single space separator, and calendar-valid field values. -/
def specFixedPattern (s : String) : Bool :=
  match s.data with
  | [y1, y2, y3, y4, c1, m1, m2, c2, d1, d2, c3, h1, h2, c4, n1, n2] =>
    charIsDigit y1 && charIsDigit y2 && charIsDigit y3 && charIsDigit y4 &&
    c1 == '-' && charIsDigit m1 && charIsDigit m2 && c2 == '-' &&
    charIsDigit d1 && charIsDigit d2 && c3 == ' ' &&
    charIsDigit h1 && charIsDigit h2 && c4 == ':' &&
    charIsDigit n1 && charIsDigit n2 &&
    decide (1 ≤ listToNat [y1, y2, y3, y4]) &&
    decide (1 ≤ listToNat [m1, m2]) && decide (listToNat [m1, m2] ≤ 12) &&
    decide (1 ≤ listToNat [d1, d2]) &&
    decide (listToNat [d1, d2] ≤
      daysInMonth (listToNat [y1, y2, y3, y4]) (listToNat [m1, m2])) &&
    decide (listToNat [h1, h2] ≤ 23) && decide (listToNat [n1, n2] ≤ 59)
  | _ => false

example : specFixedPattern "2025-03-01 10:00" = true := by decide
example : specFixedPattern "2024-02-29 23:59" = true := by decide
example : specFixedPattern "2024-02-30 10:00" = false := by decide
example : specFixedPattern "2025-3-01 10:00" = false := by decide

/-! ### Helper lemmas about the scheduling pipeline -/

theorem charIsDigit_not_space (c : Char) (h : charIsDigit c = true) : isPySpace c = false := by
  unfold charIsDigit at h
  simp only [Bool.and_eq_true, decide_eq_true_eq] at h
  unfold isPySpace
  have h1 : c ≠ ' ' := by rintro rfl; revert h; decide
  have h2 : c ≠ '\t' := by rintro rfl; revert h; decide
  have h3 : c ≠ '\n' := by rintro rfl; revert h; decide
  have h4 : c ≠ '\x0d' := by rintro rfl; revert h; decide
  have h5 : c ≠ '\x0b' := by rintro rfl; revert h; decide
  have h6 : c ≠ '\x0c' := by rintro rfl; revert h; decide
  simp [h1, h2, h3, h4, h5, h6]

/-- Every string matching the spec's strict fixed pattern is accepted by the
code's (more lenient) `strptime`-based validator. -/
theorem specFixedPattern_accepted (s : String) (h : specFixedPattern s = true) :
    (validate_datetime s).1 = true := by
  unfold specFixedPattern at h
  split at h
  case _ y1 y2 y3 y4 c1 m1 m2 c2 d1 d2 c3 h1 h2 c4 n1 n2 heq =>
    simp only [Bool.and_eq_true, beq_iff_eq, decide_eq_true_eq] at h
    obtain ⟨⟨⟨⟨⟨⟨⟨⟨⟨⟨⟨⟨⟨⟨⟨⟨⟨⟨⟨⟨⟨⟨hy1, hy2⟩, hy3⟩, hy4⟩, hc1⟩, hm1⟩, hm2⟩, hc2⟩,
      hd1⟩, hd2⟩, hc3⟩, hh1⟩, hh2⟩, hc4⟩, hn1⟩, hn2⟩, hyv⟩, hmv1⟩, hmv2⟩, hdv1⟩, hdv2⟩,
      hhv⟩, hnv⟩ := h
    subst hc1 hc2 hc3 hc4
    have hdash : charIsDigit '-' = false := by decide
    have hcolon : charIsDigit ':' = false := by decide
    have hspace : charIsDigit ' ' = false := by decide
    have hspacews : isPySpace ' ' = true := by decide
    have hh1ws := charIsDigit_not_space _ hh1
    have hdays : daysInMonth (listToNat [y1, y2, y3, y4]) (listToNat [m1, m2]) ≤ 31 := by
      unfold daysInMonth
      split
      · split <;> omega
      · split <;> omega
    have hdv31 : listToNat [d1, d2] ≤ 31 := le_trans hdv2 hdays
    have hsome : (strptimeYmdHM s).isSome = true := by
      simp only [strptimeYmdHM, heq]
      simp [hy1, hy2, hy3, hy4, hm1, hm2, hd1, hd2, hh1, hh2, hn1, hn2,
        hdash, hcolon, hspace, hspacews, hh1ws,
        hyv, hmv1, hmv2, hdv1, hdv2, hdv31, hhv, hnv]
    unfold validate_datetime
    obtain ⟨t, ht⟩ := Option.isSome_iff_exists.mp hsome
    rw [ht]
  case _ => simp at h

/-- At most one Scheduled appointment may occupy any (doctor, datetime) slot. -/
def SlotInvariant (db : ClinicDB) : Prop :=
  ∀ did dt, slotCount db did dt ≤ 1

theorem validate_datetime_cases (s : String) :
    validate_datetime s = (true, "") ∨
      validate_datetime s = (false, "Invalid date/time format. Use: YYYY-MM-DD HH:MM") := by
  unfold validate_datetime
  cases strptimeYmdHM s <;> simp

theorem sched_patientFmt (db : ClinicDB) (p d dt r : String) (h : pyIsdigit p = false) :
    schedule_appointment db p d dt r = ((false, "Patient ID must be a number."), db) := by
  simp [schedule_appointment, h]

theorem sched_doctorFmt (db : ClinicDB) (p d dt r : String)
    (hp : pyIsdigit p = true) (h : pyIsdigit d = false) :
    schedule_appointment db p d dt r = ((false, "Doctor ID must be a number."), db) := by
  simp [schedule_appointment, hp, h]

theorem sched_patientMissing (db : ClinicDB) (p d dt r : String)
    (hp : pyIsdigit p = true) (hd : pyIsdigit d = true)
    (h : get_patient_by_id db (strToNat p) = none) :
    schedule_appointment db p d dt r = ((false, "Patient not found."), db) := by
  simp [schedule_appointment, hp, hd, h]

theorem sched_doctorMissing (db : ClinicDB) (p d dt r : String)
    (hp : pyIsdigit p = true) (hd : pyIsdigit d = true)
    (hpe : (get_patient_by_id db (strToNat p)).isSome = true)
    (h : get_doctor_by_id db (strToNat d) = none) :
    schedule_appointment db p d dt r = ((false, "Doctor not found."), db) := by
  obtain ⟨pt, hpt⟩ := Option.isSome_iff_exists.mp hpe
  simp [schedule_appointment, hp, hd, hpt, h]

theorem sched_badDT (db : ClinicDB) (p d dt r : String)
    (hp : pyIsdigit p = true) (hd : pyIsdigit d = true)
    (hpe : (get_patient_by_id db (strToNat p)).isSome = true)
    (hde : (get_doctor_by_id db (strToNat d)).isSome = true)
    (h : (validate_datetime dt).1 = false) :
    schedule_appointment db p d dt r =
      ((false, "Invalid date/time format. Use: YYYY-MM-DD HH:MM"), db) := by
  obtain ⟨pt, hpt⟩ := Option.isSome_iff_exists.mp hpe
  obtain ⟨dr, hdr⟩ := Option.isSome_iff_exists.mp hde
  rcases validate_datetime_cases dt with hv | hv
  · rw [hv] at h; simp at h
  · simp [schedule_appointment, hp, hd, hpt, hdr, hv]

theorem sched_unavailable (db : ClinicDB) (p d dt r : String)
    (hp : pyIsdigit p = true) (hd : pyIsdigit d = true)
    (hpe : (get_patient_by_id db (strToNat p)).isSome = true)
    (hde : (get_doctor_by_id db (strToNat d)).isSome = true)
    (hv : (validate_datetime dt).1 = true)
    (h : is_doctor_available db (strToNat d) dt = false) :
    schedule_appointment db p d dt r =
      ((false, "This doctor is not available at the selected time."), db) := by
  obtain ⟨pt, hpt⟩ := Option.isSome_iff_exists.mp hpe
  obtain ⟨dr, hdr⟩ := Option.isSome_iff_exists.mp hde
  simp [schedule_appointment, hp, hd, hpt, hdr, hv, h]

theorem sched_success (db : ClinicDB) (p d dt r : String)
    (hp : pyIsdigit p = true) (hd : pyIsdigit d = true)
    (hpe : (get_patient_by_id db (strToNat p)).isSome = true)
    (hde : (get_doctor_by_id db (strToNat d)).isSome = true)
    (hv : (validate_datetime dt).1 = true)
    (h : is_doctor_available db (strToNat d) dt = true) :
    schedule_appointment db p d dt r =
      ((true, "Appointment scheduled successfully."),
        save_appointment db (strToNat p) (strToNat d) dt (pyStrip r)) := by
  obtain ⟨pt, hpt⟩ := Option.isSome_iff_exists.mp hpe
  obtain ⟨dr, hdr⟩ := Option.isSome_iff_exists.mp hde
  simp [schedule_appointment, hp, hd, hpt, hdr, hv, h]

theorem sched_success_inv (db db' : ClinicDB) (p d dt r m : String)
    (h : schedule_appointment db p d dt r = ((true, m), db')) :
    pyIsdigit p = true ∧ pyIsdigit d = true ∧
      (get_patient_by_id db (strToNat p)).isSome = true ∧
      (get_doctor_by_id db (strToNat d)).isSome = true ∧
      (validate_datetime dt).1 = true ∧
      is_doctor_available db (strToNat d) dt = true ∧
      m = "Appointment scheduled successfully." ∧
      db' = save_appointment db (strToNat p) (strToNat d) dt (pyStrip r) := by
  by_cases hp : pyIsdigit p
  · by_cases hd : pyIsdigit d
    · cases hpt : get_patient_by_id db (strToNat p) with
      | none => rw [sched_patientMissing db p d dt r hp hd hpt] at h; simp at h
      | some pt =>
        cases hdr : get_doctor_by_id db (strToNat d) with
        | none =>
          rw [sched_doctorMissing db p d dt r hp hd (by simp [hpt]) hdr] at h; simp at h
        | some dr =>
          by_cases hv : (validate_datetime dt).1 = true
          · by_cases ha : is_doctor_available db (strToNat d) dt
            · have := sched_success db p d dt r hp hd (by simp [hpt]) (by simp [hdr]) hv ha
              rw [this] at h
              have h1 := congrArg (fun x => x.1.2) h
              have h2 := congrArg Prod.snd h
              exact ⟨hp, hd, by simp [hpt], by simp [hdr], hv, ha, h1.symm, h2.symm⟩
            · rw [sched_unavailable db p d dt r hp hd (by simp [hpt]) (by simp [hdr]) hv
                (by simpa using ha)] at h
              simp at h
          · rw [sched_badDT db p d dt r hp hd (by simp [hpt]) (by simp [hdr])
              (by simpa using hv)] at h
            simp at h
    · rw [sched_doctorFmt db p d dt r hp (by simpa using hd)] at h; simp at h
  · rw [sched_patientFmt db p d dt r (by simpa using hp)] at h; simp at h

theorem sched_fail_state (db : ClinicDB) (p d dt r : String)
    (h : (schedule_appointment db p d dt r).1.1 = false) :
    (schedule_appointment db p d dt r).2 = db := by
  unfold schedule_appointment at *
  repeat' split at h <;> simp_all

theorem slotCount_save (db : ClinicDB) (pid did : Nat) (dt reason : String)
    (did' : Nat) (dt' : String) :
    slotCount (save_appointment db pid did dt reason) did' dt' =
      slotCount db did' dt' + (if did = did' ∧ dt = dt' then 1 else 0) := by
  simp only [slotCount, save_appointment, List.filter_append, List.length_append]
  congr 1
  by_cases h : did = did' ∧ dt = dt'
  · simp [slotHit, h.1, h.2]
  · rw [not_and_or] at h
    rcases h with h | h <;> simp [slotHit, h]

theorem available_slotCount_zero (db : ClinicDB) (did : Nat) (dt : String)
    (h : is_doctor_available db did dt = true) : slotCount db did dt = 0 := by
  simpa [is_doctor_available] using h

theorem sched_preserves_inv (db : ClinicDB) (p d dt r : String) (h : SlotInvariant db) :
    SlotInvariant (schedule_appointment db p d dt r).2 := by
  cases hok : (schedule_appointment db p d dt r).1.1 with
  | false => rw [sched_fail_state db p d dt r hok]; exact h
  | true =>
    obtain ⟨-, -, -, -, -, ha, -, hdb⟩ :=
      sched_success_inv db (schedule_appointment db p d dt r).2 p d dt r
        (schedule_appointment db p d dt r).1.2
        (by rw [← hok])
    intro did' dt'
    rw [hdb, slotCount_save]
    by_cases hsame : strToNat d = did' ∧ dt = dt'
    · rw [if_pos hsame, ← hsame.1, ← hsame.2, available_slotCount_zero db _ _ ha]
    · rw [if_neg hsame]
      exact Nat.add_le_of_le_sub (by omega) (by simpa using h did' dt')

theorem decimalVal?_ascii (c : Char) (h : charIsDigit c = true) :
    decimalVal? c = some (c.toNat - 48) := by
  unfold charIsDigit at h
  simp only [Bool.and_eq_true, decide_eq_true_eq] at h
  have h1 : 48 ≤ c.toNat := h.1
  have h2 : c.toNat ≤ 57 := h.2
  unfold decimalVal? decimalDigitBases
  rw [List.find?_cons_of_pos _ (by simp; omega)]

theorem mapM_decimal_ascii (cs : List Char) (h : ∀ c ∈ cs, charIsDigit c = true) :
    cs.mapM decimalVal? = some (cs.map (fun c => c.toNat - 48)) := by
  induction cs with
  | nil => rfl
  | cons a l ih =>
    rw [List.mapM_cons, decimalVal?_ascii a (h a (by simp)),
      ih (fun c hc => h c (by simp [hc]))]
    rfl

theorem mapM_decimal_isSome (cs : List Char) (h : ∀ c ∈ cs, (decimalVal? c).isSome = true) :
    ∃ ds, cs.mapM decimalVal? = some ds := by
  induction cs with
  | nil => exact ⟨[], rfl⟩
  | cons a l ih =>
    obtain ⟨v, hv⟩ := Option.isSome_iff_exists.mp (h a (by simp))
    obtain ⟨ds, hds⟩ := ih (fun c hc => h c (by simp [hc]))
    exact ⟨v :: ds, by rw [List.mapM_cons, hv, hds]; rfl⟩

theorem pyInt?_ascii (s : String) (h : pyIsdigit s = true) :
    pyInt? s = some (strToNat s) := by
  unfold pyIsdigit at h
  simp only [Bool.and_eq_true, Bool.not_eq_true', List.all_eq_true] at h
  unfold pyInt? strToNat listToNat
  rw [if_neg (by simp [h.1]), mapM_decimal_ascii s.data h.2]
  simp [List.foldl_map]

theorem pyIsdigitU_of_ascii (s : String) (h : pyIsdigit s = true) : pyIsdigitU s = true := by
  unfold pyIsdigit at h
  unfold pyIsdigitU
  simp only [Bool.and_eq_true, Bool.not_eq_true', List.all_eq_true] at h ⊢
  exact ⟨h.1, fun c hc => by simp [pyIsdigitChar, decimalVal?_ascii c (h.2 c hc)]⟩

theorem exc_patientFmt (db : ClinicDB) (p d dt r : String) (h : pyIsdigitU p = false) :
    schedule_appointment_exc db p d dt r =
      .ok ((false, "Patient ID must be a number."), db) := by
  simp [schedule_appointment_exc, h]

theorem exc_doctorFmt (db : ClinicDB) (p d dt r : String)
    (hp : pyIsdigitU p = true) (h : pyIsdigitU d = false) :
    schedule_appointment_exc db p d dt r =
      .ok ((false, "Doctor ID must be a number."), db) := by
  simp [schedule_appointment_exc, hp, h]

theorem exc_crashPatient (db : ClinicDB) (p d dt r : String)
    (hp : pyIsdigitU p = true) (hd : pyIsdigitU d = true) (h : pyInt? p = none) :
    schedule_appointment_exc db p d dt r =
      .error ("ValueError: invalid literal for int() with base 10: " ++ p) := by
  simp [schedule_appointment_exc, hp, hd, h]

theorem exc_crashDoctor (db : ClinicDB) (p d dt r : String) (pid : Nat)
    (hp : pyIsdigitU p = true) (hd : pyIsdigitU d = true)
    (hpi : pyInt? p = some pid) (h : pyInt? d = none) :
    schedule_appointment_exc db p d dt r =
      .error ("ValueError: invalid literal for int() with base 10: " ++ d) := by
  simp [schedule_appointment_exc, hp, hd, hpi, h]

theorem exc_patientMissing (db : ClinicDB) (p d dt r : String) (pid did : Nat)
    (hp : pyIsdigitU p = true) (hd : pyIsdigitU d = true)
    (hpi : pyInt? p = some pid) (hdi : pyInt? d = some did)
    (h : get_patient_by_id db pid = none) :
    schedule_appointment_exc db p d dt r = .ok ((false, "Patient not found."), db) := by
  simp [schedule_appointment_exc, hp, hd, hpi, hdi, h]

theorem exc_doctorMissing (db : ClinicDB) (p d dt r : String) (pid did : Nat)
    (hp : pyIsdigitU p = true) (hd : pyIsdigitU d = true)
    (hpi : pyInt? p = some pid) (hdi : pyInt? d = some did)
    (hpe : (get_patient_by_id db pid).isSome = true)
    (h : get_doctor_by_id db did = none) :
    schedule_appointment_exc db p d dt r = .ok ((false, "Doctor not found."), db) := by
  obtain ⟨pt, hpt⟩ := Option.isSome_iff_exists.mp hpe
  simp [schedule_appointment_exc, hp, hd, hpi, hdi, hpt, h]

theorem exc_badDT (db : ClinicDB) (p d dt r : String) (pid did : Nat)
    (hp : pyIsdigitU p = true) (hd : pyIsdigitU d = true)
    (hpi : pyInt? p = some pid) (hdi : pyInt? d = some did)
    (hpe : (get_patient_by_id db pid).isSome = true)
    (hde : (get_doctor_by_id db did).isSome = true)
    (h : (validate_datetime dt).1 = false) :
    schedule_appointment_exc db p d dt r =
      .ok ((false, "Invalid date/time format. Use: YYYY-MM-DD HH:MM"), db) := by
  obtain ⟨pt, hpt⟩ := Option.isSome_iff_exists.mp hpe
  obtain ⟨dr, hdr⟩ := Option.isSome_iff_exists.mp hde
  rcases validate_datetime_cases dt with hv | hv
  · rw [hv] at h; simp at h
  · simp [schedule_appointment_exc, hp, hd, hpi, hdi, hpt, hdr, hv]

theorem exc_unavailable (db : ClinicDB) (p d dt r : String) (pid did : Nat)
    (hp : pyIsdigitU p = true) (hd : pyIsdigitU d = true)
    (hpi : pyInt? p = some pid) (hdi : pyInt? d = some did)
    (hpe : (get_patient_by_id db pid).isSome = true)
    (hde : (get_doctor_by_id db did).isSome = true)
    (hv : (validate_datetime dt).1 = true)
    (h : is_doctor_available db did dt = false) :
    schedule_appointment_exc db p d dt r =
      .ok ((false, "This doctor is not available at the selected time."), db) := by
  obtain ⟨pt, hpt⟩ := Option.isSome_iff_exists.mp hpe
  obtain ⟨dr, hdr⟩ := Option.isSome_iff_exists.mp hde
  simp [schedule_appointment_exc, hp, hd, hpi, hdi, hpt, hdr, hv, h]

theorem exc_success (db : ClinicDB) (p d dt r : String) (pid did : Nat)
    (hp : pyIsdigitU p = true) (hd : pyIsdigitU d = true)
    (hpi : pyInt? p = some pid) (hdi : pyInt? d = some did)
    (hpe : (get_patient_by_id db pid).isSome = true)
    (hde : (get_doctor_by_id db did).isSome = true)
    (hv : (validate_datetime dt).1 = true)
    (h : is_doctor_available db did dt = true) :
    schedule_appointment_exc db p d dt r =
      .ok ((true, "Appointment scheduled successfully."),
        save_appointment db pid did dt (pyStrip r)) := by
  obtain ⟨pt, hpt⟩ := Option.isSome_iff_exists.mp hpe
  obtain ⟨dr, hdr⟩ := Option.isSome_iff_exists.mp hde
  simp [schedule_appointment_exc, hp, hd, hpi, hdi, hpt, hdr, hv, h]

/-! ### Claim theorems -/

/-- C2 (amended): `schedule_appointment` runs its checks in the fixed
order (1) patient-id format, (2) doctor-id format, then the two unguarded
`int()` conversions — which raise an uncaught ValueError for a token that
passes `isdigit` without consisting of decimal digits — then (3) patient
existence, (4) doctor existence, (5) datetime format, (6) availability,
(7) persist, short-circuiting at the first failed check with that step's
distinct message; each conjunct assumes only the outcomes of the earlier
steps, so in particular a converted but nonexistent patient or doctor id
combined with a malformed datetime yields the "not found" message, not the
datetime-format message. -/
theorem C2_check_order (db : ClinicDB) (p d dt r : String) :
    (pyIsdigitU p = false →
      schedule_appointment_exc db p d dt r =
        .ok ((false, "Patient ID must be a number."), db)) ∧
    (pyIsdigitU p = true → pyIsdigitU d = false →
      schedule_appointment_exc db p d dt r =
        .ok ((false, "Doctor ID must be a number."), db)) ∧
    (pyIsdigitU p = true → pyIsdigitU d = true → pyInt? p = none →
      schedule_appointment_exc db p d dt r =
        .error ("ValueError: invalid literal for int() with base 10: " ++ p)) ∧
    (∀ pid, pyIsdigitU p = true → pyIsdigitU d = true →
      pyInt? p = some pid → pyInt? d = none →
      schedule_appointment_exc db p d dt r =
        .error ("ValueError: invalid literal for int() with base 10: " ++ d)) ∧
    (∀ pid did, pyIsdigitU p = true → pyIsdigitU d = true →
      pyInt? p = some pid → pyInt? d = some did →
      (get_patient_by_id db pid = none →
        schedule_appointment_exc db p d dt r = .ok ((false, "Patient not found."), db)) ∧
      ((get_patient_by_id db pid).isSome = true → get_doctor_by_id db did = none →
        schedule_appointment_exc db p d dt r = .ok ((false, "Doctor not found."), db)) ∧
      ((get_patient_by_id db pid).isSome = true →
        (get_doctor_by_id db did).isSome = true →
        (validate_datetime dt).1 = false →
        schedule_appointment_exc db p d dt r =
          .ok ((false, "Invalid date/time format. Use: YYYY-MM-DD HH:MM"), db)) ∧
      ((get_patient_by_id db pid).isSome = true →
        (get_doctor_by_id db did).isSome = true →
        (validate_datetime dt).1 = true →
        is_doctor_available db did dt = false →
        schedule_appointment_exc db p d dt r =
          .ok ((false, "This doctor is not available at the selected time."), db)) ∧
      ((get_patient_by_id db pid).isSome = true →
        (get_doctor_by_id db did).isSome = true →
        (validate_datetime dt).1 = true →
        is_doctor_available db did dt = true →
        schedule_appointment_exc db p d dt r =
          .ok ((true, "Appointment scheduled successfully."),
            save_appointment db pid did dt (pyStrip r)))) := by
  refine ⟨fun h => exc_patientFmt db p d dt r h,
    fun hp h => exc_doctorFmt db p d dt r hp h,
    fun hp hd h => exc_crashPatient db p d dt r hp hd h,
    fun pid hp hd hpi h => exc_crashDoctor db p d dt r pid hp hd hpi h,
    fun pid did hp hd hpi hdi => ?_⟩
  exact ⟨fun h => exc_patientMissing db p d dt r pid did hp hd hpi hdi h,
    fun hpe h => exc_doctorMissing db p d dt r pid did hp hd hpi hdi hpe h,
    fun hpe hde h => exc_badDT db p d dt r pid did hp hd hpi hdi hpe hde h,
    fun hpe hde hv h => exc_unavailable db p d dt r pid did hp hd hpi hdi hpe hde hv h,
    fun hpe hde hv h => exc_success db p d dt r pid did hp hd hpi hdi hpe hde hv h⟩

/-- C2 witness: on the sample store, a convertible but nonexistent patient
id combined with a malformed datetime yields "Patient not found.", not the
datetime-format message. -/
theorem C2_check_order_witness :
    schedule_appointment_exc sampleDB "99" "2" "03/01/2025 10:00" "checkup" =
      .ok ((false, "Patient not found."), sampleDB) :=
  ((C2_check_order sampleDB "99" "2" "03/01/2025 10:00" "checkup").2.2.2.2 99 2
    (by decide) (by decide) (by decide) (by decide)).1 (by decide)

/-- C2 counterexample: at the patient token "²" no step short-circuits with
a message at all — both isdigit checks pass and the unguarded int()
conversion raises an uncaught ValueError, so the call produces no
(success, message) result. -/
theorem C2_counterexample :
    schedule_appointment_exc sampleDB "²" "2" "2025-03-01 10:00" "checkup" =
      .error "ValueError: invalid literal for int() with base 10: ²" ∧
    (schedule_appointment_exc sampleDB "²" "2" "2025-03-01 10:00" "checkup").toOption =
      none := by
  exact ⟨by decide, by decide⟩

/-- C5: `is_doctor_available` returns true iff the store holds no record
with status Scheduled and exactly that (doctor, datetime-string) pair; it is
read-only by construction (a pure function of the store returning a Bool). -/
theorem C5_is_doctor_available_iff (db : ClinicDB) (did : Nat) (dt : String) :
    is_doctor_available db did dt = true ↔
      ∀ a ∈ db.appointments,
        ¬(a.doctor_id = did ∧ a.appt_datetime = dt ∧ a.status = "Scheduled") := by
  simp only [is_doctor_available, slotCount, beq_iff_eq, List.length_eq_zero,
    List.filter_eq_nil_iff, slotHit]
  constructor
  · intro h a ha hc
    exact h a ha (by simp [hc.1, hc.2.1, hc.2.2])
  · intro h a ha hc
    simp only [Bool.and_eq_true, beq_iff_eq] at hc
    exact h a ha ⟨hc.1.1, hc.1.2, hc.2⟩

/-- C6: when both id tokens are all digits, the patient and the doctor
exist, the datetime parses and the slot is free, `schedule_appointment`
succeeds with the fixed message and the store gains exactly one new
appointment (next AUTOINCREMENT id, given patient/doctor/datetime, reason
trimmed of surrounding whitespace, status Scheduled). -/
theorem C6_success (db : ClinicDB) (p d dt r : String)
    (hp : pyIsdigit p = true) (hd : pyIsdigit d = true)
    (hpe : (get_patient_by_id db (strToNat p)).isSome = true)
    (hde : (get_doctor_by_id db (strToNat d)).isSome = true)
    (hv : (validate_datetime dt).1 = true)
    (ha : is_doctor_available db (strToNat d) dt = true) :
    schedule_appointment db p d dt r =
      ((true, "Appointment scheduled successfully."),
        { db with
          appointments := db.appointments ++
            [{ id := db.nextApptId, patient_id := strToNat p, doctor_id := strToNat d,
               appt_datetime := dt, reason := pyStrip r, status := "Scheduled" }],
          nextApptId := db.nextApptId + 1 }) :=
  sched_success db p d dt r hp hd hpe hde hv ha

/-- C6 witness: the spec's scenario, patient 1 and doctor 2 exist and
`schedule("1","2","2025-03-01 10:00"," checkup ")` succeeds, appending one
Scheduled appointment with the reason trimmed. -/
theorem C6_success_witness :
    schedule_appointment sampleDB "1" "2" "2025-03-01 10:00" " checkup " =
      ((true, "Appointment scheduled successfully."),
        { sampleDB with
          appointments := [{ id := 1, patient_id := 1, doctor_id := 2,
                             appt_datetime := "2025-03-01 10:00", reason := "checkup",
                             status := "Scheduled" }],
          nextApptId := 2 }) := by
  have := C6_success sampleDB "1" "2" "2025-03-01 10:00" " checkup "
    (by decide) (by decide) (by decide) (by decide) (by decide) (by decide)
  rw [this]
  decide

/-- C7: a failing `schedule_appointment` call leaves the store unchanged,
and repeating the call with the same (invalid) input from the resulting
store yields the identical failure outcome and again no new record. -/
theorem C7_reject_idempotent (db db' : ClinicDB) (p d dt r m : String)
    (h : schedule_appointment db p d dt r = ((false, m), db')) :
    db' = db ∧ schedule_appointment db' p d dt r = ((false, m), db') := by
  have hfail : (schedule_appointment db p d dt r).1.1 = false := by rw [h]
  have hst : db' = db := by
    have := sched_fail_state db p d dt r hfail
    rw [h] at this
    exact this
  subst hst
  exact ⟨rfl, h⟩

/-- C7 witness: a malformed-datetime rejection on the sample store leaves it
unchanged and repeats identically. -/
theorem C7_reject_idempotent_witness :
    sampleDB = sampleDB ∧
      schedule_appointment sampleDB "1" "2" "03/01/2025 10:00" "checkup" =
        ((false, "Invalid date/time format. Use: YYYY-MM-DD HH:MM"), sampleDB) :=
  C7_reject_idempotent sampleDB sampleDB "1" "2" "03/01/2025 10:00" "checkup"
    "Invalid date/time format. Use: YYYY-MM-DD HH:MM" (by decide)

/-- C8: the claim states that `schedule_appointment` never raises an
uncaught exception for bad input; the code contradicts it (and the spec's
own error-handling design, which the claim restates): the patient token "²"
passes the `isdigit` format check, yet `int("²")` has no value, so the
unguarded conversion at CMS.py:257 raises a ValueError that escapes the
call instead of becoming a (False, message) result — evaluated here on the
faithful pipeline at that failing input. -/
theorem C8_uncaught_valueerror :
    pyIsdigitU "²" = true ∧ pyInt? "²" = none ∧
    schedule_appointment_exc sampleDB "²" "2" "2025-03-01 10:00" "x" =
      .error "ValueError: invalid literal for int() with base 10: ²" ∧
    (schedule_appointment_exc sampleDB "²" "2" "2025-03-01 10:00" "x").toOption = none := by
  exact ⟨by decide, by decide, by decide, by decide⟩

/-- C1 (amended): `schedule_appointment` preserves the at-most-one-Scheduled
per (doctor, timestamp) invariant; and after a successful call for a doctor
token and datetime string, a second call with the same doctor token and
datetime string, any all-digit patient token naming an existing patient and
any reason, fails with "This doctor is not available at the selected time."
while the store keeps exactly one Scheduled appointment for that slot. -/
theorem C1_slot_uniqueness :
    (∀ (db : ClinicDB) (p d dt r : String),
      SlotInvariant db → SlotInvariant (schedule_appointment db p d dt r).2) ∧
    (∀ (db db' : ClinicDB) (p d dt r m p2 r2 : String),
      schedule_appointment db p d dt r = ((true, m), db') →
      pyIsdigit p2 = true →
      (get_patient_by_id db' (strToNat p2)).isSome = true →
      schedule_appointment db' p2 d dt r2 =
        ((false, "This doctor is not available at the selected time."), db') ∧
      slotCount db' (strToNat d) dt = 1) := by
  refine ⟨fun db p d dt r h => sched_preserves_inv db p d dt r h, ?_⟩
  intro db db' p d dt r m p2 r2 hs hp2 hpe2
  obtain ⟨hp, hd, hpe, hde, hv, ha, hm, hdb⟩ := sched_success_inv db db' p d dt r m hs
  have hcount : slotCount db' (strToNat d) dt = 1 := by
    rw [hdb, slotCount_save, available_slotCount_zero db _ _ ha, if_pos ⟨rfl, rfl⟩]
  have hde' : (get_doctor_by_id db' (strToNat d)).isSome = true := by
    rw [hdb]
    simpa [get_doctor_by_id, save_appointment] using hde
  have hna : is_doctor_available db' (strToNat d) dt = false := by
    simp [is_doctor_available, hcount]
  exact ⟨sched_unavailable db' p2 d dt r2 hp2 hd hpe2 hde' hv hna, hcount⟩

/-- C1 witness: after successfully scheduling doctor 2 at
"2025-03-01 10:00", a second call with the same doctor token and datetime
string and the existing patient 1 fails with the availability message and
the slot still holds exactly one Scheduled appointment. -/
theorem C1_slot_uniqueness_witness :
    schedule_appointment
        (schedule_appointment sampleDB "1" "2" "2025-03-01 10:00" "checkup").2
        "1" "2" "2025-03-01 10:00" "again" =
      ((false, "This doctor is not available at the selected time."),
        (schedule_appointment sampleDB "1" "2" "2025-03-01 10:00" "checkup").2) ∧
    slotCount (schedule_appointment sampleDB "1" "2" "2025-03-01 10:00" "checkup").2
      (strToNat "2") "2025-03-01 10:00" = 1 :=
  C1_slot_uniqueness.2 sampleDB
    (schedule_appointment sampleDB "1" "2" "2025-03-01 10:00" "checkup").2
    "1" "2" "2025-03-01 10:00" "checkup" "Appointment scheduled successfully."
    "1" "again" (by decide) (by decide) (by decide)

/-- C1 counterexample: the claim's "any patient, any reason" fails —
after a successful schedule for doctor 2 at "2025-03-01 10:00", a second
call with the same doctor token and datetime string but a non-numeric
patient token returns the identifier-format message, not the availability
message. -/
theorem C1_counterexample :
    (schedule_appointment sampleDB "1" "2" "2025-03-01 10:00" "checkup").1.1 = true ∧
    (schedule_appointment
        (schedule_appointment sampleDB "1" "2" "2025-03-01 10:00" "checkup").2
        "x" "2" "2025-03-01 10:00" "y").1 =
      (false, "Patient ID must be a number.") ∧
    "Patient ID must be a number." ≠
      "This doctor is not available at the selected time." := by
  exact ⟨by decide, by decide, by decide⟩

/-- C3 (amended): the identifier format check of `schedule_appointment`
(Python `isdigit`) fails exactly when the token is empty or has a character
that is not a Unicode digit, and then the call returns
"Patient ID must be a number." (respectively "Doctor ID must be a number.")
with the store unchanged; when the check passes, the following unguarded
`int()` conversion yields the token's nonnegative decimal value if every
character is a decimal digit — in particular, an ASCII all-digit token
yields its usual base-10 value — and raises an uncaught ValueError
otherwise. -/
theorem C3_identifier_check (db : ClinicDB) (p d dt r : String) :
    (pyIsdigitU p = false →
      schedule_appointment_exc db p d dt r =
        .ok ((false, "Patient ID must be a number."), db)) ∧
    (pyIsdigitU p = true → pyIsdigitU d = false →
      schedule_appointment_exc db p d dt r =
        .ok ((false, "Doctor ID must be a number."), db)) ∧
    (pyIsdigitU p = true → pyIsdigitU d = true → pyInt? p = none →
      schedule_appointment_exc db p d dt r =
        .error ("ValueError: invalid literal for int() with base 10: " ++ p)) ∧
    ((∀ c ∈ p.data, (decimalVal? c).isSome = true) → p.data ≠ [] →
      (pyInt? p).isSome = true) ∧
    (pyIsdigit p = true → pyIsdigitU p = true ∧ pyInt? p = some (strToNat p)) := by
  refine ⟨fun h => exc_patientFmt db p d dt r h,
    fun hp h => exc_doctorFmt db p d dt r hp h,
    fun hp hd h => exc_crashPatient db p d dt r hp hd h, ?_,
    fun h => ⟨pyIsdigitU_of_ascii p h, pyInt?_ascii p h⟩⟩
  intro hall hne
  unfold pyInt?
  rw [if_neg (by simp [hne])]
  obtain ⟨ds, hds⟩ := mapM_decimal_isSome p.data hall
  rw [hds]
  rfl

/-- C3 witness: the token "²" passes the isdigit check (its single
character is a Unicode digit) yet has no decimal value, so the call raises
the uncaught conversion error instead of producing a result; the ASCII
token "42" passes and converts to 42. -/
theorem C3_identifier_check_witness :
    schedule_appointment_exc sampleDB "²" "2" "2025-03-01 10:00" "r" =
      .error ("ValueError: invalid literal for int() with base 10: " ++ "²") ∧
    (pyIsdigitU "42" = true ∧ pyInt? "42" = some (strToNat "42")) :=
  ⟨(C3_identifier_check sampleDB "²" "2" "2025-03-01 10:00" "r").2.2.1
      (by decide) (by decide) (by decide),
    (C3_identifier_check sampleDB "42" "2" "2025-03-01 10:00" "r").2.2.2.2 (by decide)⟩

/-- C3 counterexample: the token "0" is non-empty and all decimal digits,
and the identifier check lets it through (the call proceeds to the
existence check), yet the integer it yields is 0, which is not positive. -/
theorem C3_counterexample :
    pyIsdigit "0" = true ∧ strToNat "0" = 0 ∧
    (schedule_appointment sampleDB "0" "2" "2025-03-01 10:00" "r").1 =
      (false, "Patient not found.") := by
  exact ⟨by decide, by decide, by decide⟩

/-- C4 (amended): `validate_datetime` accepts every token matching the
spec's fixed `YYYY-MM-DD HH:MM` pattern with calendar-valid fields — so the
leap day "2024-02-29 23:59" is accepted and "2024-02-30 10:00" is rejected —
but it is strictly more lenient (the `strptime` regular expression also
allows one-digit month/day/hour/minute and runs of whitespace as the
separator); every rejection carries the message
"Invalid date/time format. Use: YYYY-MM-DD HH:MM". -/
theorem C4_validate_datetime :
    (∀ s, specFixedPattern s = true → (validate_datetime s).1 = true) ∧
    (validate_datetime "2024-02-29 23:59").1 = true ∧
    validate_datetime "2024-02-30 10:00" =
      (false, "Invalid date/time format. Use: YYYY-MM-DD HH:MM") ∧
    (validate_datetime "2025-3-01 10:00").1 = true ∧
    (∀ s, (validate_datetime s).1 = false →
      (validate_datetime s).2 = "Invalid date/time format. Use: YYYY-MM-DD HH:MM") := by
  refine ⟨fun s h => specFixedPattern_accepted s h, by decide, by decide, by decide, ?_⟩
  intro s h
  rcases validate_datetime_cases s with hv | hv <;> rw [hv] at h ⊢
  simp at h

/-- C4 witness: the spec's example "2025-03-01 10:00" matches the fixed
pattern and is accepted. -/
theorem C4_validate_datetime_witness :
    (validate_datetime "2025-03-01 10:00").1 = true :=
  C4_validate_datetime.1 "2025-03-01 10:00" (by decide)

/-- C4 counterexample: "2025-3-01 10:00" has a one-digit month, so it does
not match the claimed fixed two-digit pattern, yet `validate_datetime`
accepts it — the claimed "if and only if" fails. -/
theorem C4_counterexample :
    (validate_datetime "2025-3-01 10:00").1 = true ∧
    specFixedPattern "2025-3-01 10:00" = false := by
  exact ⟨by decide, by decide⟩

/-- C9: slot identity is the verbatim datetime string, not the instant it
denotes: "2025-03-01 10:00" and "2025-3-01 10:00" are distinct accepted
tokens that parse to the same instant, yet two schedule calls for the same
doctor with these two tokens both succeed, leaving two Scheduled
appointments for doctor 2 at that same parsed instant. -/
theorem C9_verbatim_slot_identity :
    "2025-03-01 10:00" ≠ "2025-3-01 10:00" ∧
    strptimeYmdHM "2025-03-01 10:00" = some ⟨2025, 3, 1, 10, 0⟩ ∧
    strptimeYmdHM "2025-3-01 10:00" = some ⟨2025, 3, 1, 10, 0⟩ ∧
    (schedule_appointment sampleDB "1" "2" "2025-03-01 10:00" "a").1.1 = true ∧
    (schedule_appointment
        (schedule_appointment sampleDB "1" "2" "2025-03-01 10:00" "a").2
        "1" "2" "2025-3-01 10:00" "b").1.1 = true ∧
    ((schedule_appointment
        (schedule_appointment sampleDB "1" "2" "2025-03-01 10:00" "a").2
        "1" "2" "2025-3-01 10:00" "b").2.appointments.filter
      (fun a => a.doctor_id == 2 && a.status == "Scheduled" &&
        strptimeYmdHM a.appt_datetime == some ⟨2025, 3, 1, 10, 0⟩)).length = 2 := by
  exact ⟨by decide, by decide, by decide, by decide, by decide, by decide⟩

/-- C10: every `schedule_appointment` call, successful or not, modifies
only the appointments table: the users, patients and doctors tables of the
resulting store equal those of the input store. -/
theorem C10_frame (db : ClinicDB) (p d dt r : String) :
    (schedule_appointment db p d dt r).2.users = db.users ∧
      (schedule_appointment db p d dt r).2.patients = db.patients ∧
      (schedule_appointment db p d dt r).2.doctors = db.doctors := by
  cases hok : (schedule_appointment db p d dt r).1.1 with
  | false => rw [sched_fail_state db p d dt r hok]; exact ⟨rfl, rfl, rfl⟩
  | true =>
    obtain ⟨-, -, -, -, -, -, -, hdb⟩ :=
      sched_success_inv db (schedule_appointment db p d dt r).2 p d dt r
        (schedule_appointment db p d dt r).1.2
        (by rw [← hok])
    rw [hdb]
    exact ⟨rfl, rfl, rfl⟩

end CMS
